import Mathlib

/-!
Shallow embedding of the fyeAssist MCP demo server, src/index.ts: the
status resource, the echo_message and send-get-request tools, the
generate_slogan prompt, and the top level startup error handling.
Outbound HTTP is modelled by an explicit outcome parameter (the parsed
response body on success, the stringified error on failure), and the
handler additionally returns the list of outbound requests it issues.
-/

/-- JSON values as the HTTP client parses them from a response body.
Numbers are modelled as integers (no claim depends on non-integral
numbers); the JavaScript undefined value is modelled by Option Json at
the use sites. -/
inductive Json where
  | null : Json
  | bool : Bool → Json
  | num : Int → Json
  | str : String → Json
  | arr : List Json → Json
  | obj : List (String × Json) → Json

/-- Lower-case hexadecimal digit, as used by JSON escape sequences. -/
def hexDigit (n : Nat) : Char :=
  if n < 10 then Char.ofNat (48 + n) else Char.ofNat (87 + n)

/-- Four-digit hexadecimal rendering, for the \u00XX escapes of
JSON.stringify. -/
def hex4 (n : Nat) : String :=
  String.mk [hexDigit (n / 4096 % 16), hexDigit (n / 256 % 16),
             hexDigit (n / 16 % 16), hexDigit (n % 16)]

/-- Escaping of a single character inside a JSON string literal,
following JSON.stringify: quote, backslash, the named control escapes,
then \u00XX for the remaining control characters. -/
def escapeChar (c : Char) : String :=
  if c = '"' then "\\\""
  else if c = '\\' then "\\\\"
  else if c = '\x08' then "\\b"
  else if c = '\x09' then "\\t"
  else if c = '\x0a' then "\\n"
  else if c = '\x0c' then "\\f"
  else if c = '\x0d' then "\\r"
  else if c.toNat < 32 then "\\u" ++ hex4 c.toNat
  else String.singleton c

/-- JSON string literal rendering, following JSON.stringify. -/
def quoteJson (s : String) : String :=
  "\"" ++ String.join (s.data.map escapeChar) ++ "\""

mutual

/-- JSON.stringify on a parsed JSON value (no replacer, no spacing). -/
def stringifyJson : Json → String
  | Json.null => "null"
  | Json.bool true => "true"
  | Json.bool false => "false"
  | Json.num n => toString n
  | Json.str s => quoteJson s
  | Json.arr xs => "[" ++ stringifyElems xs ++ "]"
  | Json.obj fs => "\x7b" ++ stringifyFields fs ++ "\x7d"

/-- Comma-separated serialization of array elements. -/
def stringifyElems : List Json → String
  | [] => ""
  | [x] => stringifyJson x
  | x :: y :: xs => stringifyJson x ++ "," ++ stringifyElems (y :: xs)

/-- Comma-separated serialization of object fields. -/
def stringifyFields : List (String × Json) → String
  | [] => ""
  | [(k, v)] => quoteJson k ++ ":" ++ stringifyJson v
  | (k, v) :: y :: xs =>
      quoteJson k ++ ":" ++ stringifyJson v ++ "," ++ stringifyFields (y :: xs)

end

/-- One text content item of a tool result: the objects with a type tag
and a text field that the handlers build. -/
structure TextContent where
  type : String
  text : String
deriving DecidableEq

/-- The CallToolResult shape of the protocol SDK: a content list plus an
optional protocol level error flag. The handlers in src/index.ts never
set the flag, which is modelled as none. -/
structure CallToolResult where
  content : List TextContent
  isError : Option Bool
deriving DecidableEq

/-- The echo_message tool handler: one text content item, the fixed
marker followed by the message, from the template literal in
src/index.ts. -/
def echo_message (message : String) : CallToolResult :=
  { content := [{ type := "text", text := "你说了：" ++ message }],
    isError := none }

/-- A request URI as the resource handler receives it; only its href is
used. -/
structure URI where
  href : String

/-- One content item of a resource read result. -/
structure ResourceContent where
  uri : String
  text : String
  mimeType : String
deriving DecidableEq

/-- The result shape of a resource read. -/
structure ReadResourceResult where
  contents : List ResourceContent
deriving DecidableEq

/-- The fixed URI the status resource is registered at. -/
def statusResourceUri : String := "resource://status/server"

/-- The hardcoded status string returned by the status resource. -/
def statusText : String :=
  "服务器运行正常，无已知错误。自上次启动以来已处理 100 次请求。"

/-- The status resource handler: echoes the request URI href and returns
the hardcoded status text with MIME type text/plain. -/
def statusResourceHandler (uri : URI) : ReadResourceResult :=
  { contents := [{ uri := uri.href, text := statusText,
                   mimeType := "text/plain" }] }

/-- Text content of a prompt message. -/
structure PromptContent where
  type : String
  text : String
deriving DecidableEq

/-- One message of a prompt result. -/
structure PromptMessage where
  role : String
  content : PromptContent
deriving DecidableEq

/-- The result shape of a prompt invocation. -/
structure GetPromptResult where
  messages : List PromptMessage
deriving DecidableEq

/-- The part of the slogan template before the interpolated theme. -/
def sloganPre : String := "请为“"

/-- The part of the slogan template after the interpolated theme. -/
def sloganPost : String :=
  "”主题生成一句有创意且吸引人的口号。要求口号简短有力，易于传播。"

/-- The generate_slogan prompt handler: a single user role message whose
text is the fixed template with the theme interpolated. -/
def generate_slogan (theme : String) : GetPromptResult :=
  { messages := [{ role := "user",
                   content := { type := "text",
                                text := sloganPre ++ theme ++ sloganPost } }] }

/-- Arguments of the send-get-request tool after schema validation: the
target URI, the query parameters, and the optional header mapping. -/
structure RequestParams where
  uri : String
  params : List (String × Json)
  headers : Option (List (String × String))

/-- One outbound HTTP GET as the handler issues it through the HTTP
client: target URI, query parameters, request headers and the timeout in
milliseconds. -/
structure OutboundRequest where
  uri : String
  params : List (String × Json)
  headers : List (String × String)
  timeout : Nat

/-- Outcome of the outbound GET: either the parsed response body, or the
stringified error the HTTP client threw (network failure, timeout,
non-2xx status and so on). -/
inductive HttpOutcome where
  | success : Json → HttpOutcome
  | failure : String → HttpOutcome

/-- JavaScript member access body.data as the handler performs it on the
parsed response body: on null it throws a TypeError (carried here as the
stringified error), on an object it yields the property value, or
undefined (none) when the property is absent, and on any other value it
yields undefined. -/
def memberData : Json → Except String (Option Json)
  | Json.null =>
      Except.error "TypeError: Cannot read properties of null (reading data)"
  | Json.obj fields => Except.ok (fields.lookup "data")
  | _ => Except.ok none

/-- String interpolation of JSON.stringify applied to a possibly
undefined value: JSON.stringify of undefined is undefined, and the
template literal renders it as the text undefined. -/
def undefinedOr : Option Json → String
  | none => "undefined"
  | some j => stringifyJson j

/-- The send-get-request tool handler. It issues exactly one outbound
GET (second component of the result); the try block then extracts the
data member of the body, serializes it and returns a success text, and
the catch block converts any thrown error into an error text. Neither
branch sets the protocol level error flag. -/
def send_get_request (args : RequestParams) (outcome : HttpOutcome) :
    CallToolResult × List OutboundRequest :=
  let req : OutboundRequest :=
    { uri := args.uri, params := args.params,
      headers := args.headers.getD [], timeout := 10000 }
  let result : CallToolResult :=
    match outcome with
    | HttpOutcome.failure err =>
        { content := [{ type := "text",
                        text := "请求错误 (" ++ err ++ ")" }],
          isError := none }
    | HttpOutcome.success body =>
        match memberData body with
        | Except.error err =>
            { content := [{ type := "text",
                            text := "请求错误 (" ++ err ++ ")" }],
              isError := none }
        | Except.ok v =>
            { content := [{ type := "text",
                            text := "请求成功: " ++ undefinedOr v }],
              isError := none }
  (result, [req])

/-- Outcome of process startup: main resolved, or main rejected with a
stringified error. -/
inductive StartupOutcome where
  | ok : StartupOutcome
  | error : String → StartupOutcome

/-- Process exit code as a function of the startup outcome: the catch on
main calls process.exit(1); when main resolves, the process later exits
with the runtime default code 0 on normal shutdown. -/
def processExitCode : StartupOutcome → Nat
  | StartupOutcome.ok => 0
  | StartupOutcome.error _ => 1

/-- Helper: the outbound request trace of the handler is the same
singleton in every branch. -/
theorem send_get_request_trace (args : RequestParams) (outcome : HttpOutcome) :
    (send_get_request args outcome).2 =
      [{ uri := args.uri, params := args.params,
         headers := args.headers.getD [], timeout := 10000 }] := rfl

/-- Claim C1: when the outbound GET throws, the send-get-request handler
returns a normally completed tool result, with a single text content
item consisting of the fixed error marker and the stringified error, and
with no protocol level error flag set. -/
theorem send_get_request_failure_soft (args : RequestParams) (err : String) :
    (send_get_request args (HttpOutcome.failure err)).1 =
      { content := [{ type := "text",
                      text := "请求错误 (" ++ err ++ ")" }],
        isError := none } := rfl

/-- Claim C2: the echo_message handler returns exactly one text content
item, the fixed marker concatenated with the message verbatim; in
particular the message hello yields the expected text. -/
theorem echo_message_spec :
    (∀ message : String,
      echo_message message =
        { content := [{ type := "text", text := "你说了：" ++ message }],
          isError := none }) ∧
    echo_message "hello" =
      { content := [{ type := "text", text := "你说了：hello" }],
        isError := none } :=
  ⟨fun _ => rfl, by decide⟩

/-- Claim C3: when the GET succeeds and the response body is an object
whose data property has value x, the handler returns one text content
item: the success marker followed by the JSON serialization of x. -/
theorem send_get_request_success_data
    (args : RequestParams) (fields : List (String × Json)) (x : Json)
    (h : fields.lookup "data" = some x) :
    (send_get_request args (HttpOutcome.success (Json.obj fields))).1.content =
      [{ type := "text", text := "请求成功: " ++ stringifyJson x }] := by
  simp [send_get_request, memberData, h, undefinedOr]

/-- Witness for claim C3 at a concrete body. -/
theorem send_get_request_success_data_witness :
    ([("data", Json.str "ok")].lookup "data" = some (Json.str "ok")) ∧
    (send_get_request { uri := "http://a.example/", params := [], headers := none }
        (HttpOutcome.success (Json.obj [("data", Json.str "ok")]))).1.content =
      [{ type := "text", text := "请求成功: " ++ stringifyJson (Json.str "ok") }] :=
  ⟨rfl, send_get_request_success_data _ _ _ rfl⟩

/-- Claim C4: the status resource handler is a pure function that always
returns the single hardcoded status content item with MIME type
text/plain; at the fixed URI the resource is registered at, the whole
result is one fixed value. -/
theorem status_resource_fixed :
    (∀ u : URI,
      statusResourceHandler u =
        { contents := [{ uri := u.href, text := statusText,
                         mimeType := "text/plain" }] }) ∧
    statusResourceHandler { href := statusResourceUri } =
      { contents := [{ uri := "resource://status/server",
                       text := "服务器运行正常，无已知错误。自上次启动以来已处理 100 次请求。",
                       mimeType := "text/plain" }] } :=
  ⟨fun _ => rfl, rfl⟩

/-- Claim C5: the generate_slogan handler returns exactly one message,
of role user, whose text is the fixed template with the theme
interpolated, so the text contains the theme verbatim. -/
theorem generate_slogan_spec (theme : String) :
    generate_slogan theme =
      { messages := [{ role := "user",
                       content := { type := "text",
                                    text := sloganPre ++ theme ++ sloganPost } }] } ∧
    ∃ p q : String, sloganPre ++ theme ++ sloganPost = p ++ theme ++ q :=
  ⟨rfl, sloganPre, sloganPost, rfl⟩

/-- Claim C6: every invocation of the send-get-request handler issues
exactly one outbound GET, to the supplied URI, with the supplied params
as query parameters, the supplied headers (defaulted to the empty
mapping) as request headers, and a fixed timeout of 10000 milliseconds,
for every outcome. -/
theorem send_get_request_single_get (args : RequestParams) (outcome : HttpOutcome) :
    (send_get_request args outcome).2 =
      [{ uri := args.uri, params := args.params,
         headers := args.headers.getD [], timeout := 10000 }] ∧
    (send_get_request args outcome).2.length = 1 :=
  ⟨send_get_request_trace args outcome, by rw [send_get_request_trace]; rfl⟩

/-- Counterexample to claim C7 as stated: a successful GET whose
response body is JSON null has no data field, yet the handler takes the
error path (member access on null throws inside the try block), not the
success-prefixed undefined text the claim requires. -/
theorem send_get_request_null_body_counterexample :
    (send_get_request { uri := "http://a.example/", params := [], headers := none }
        (HttpOutcome.success Json.null)).1.content =
      [{ type := "text",
         text := "请求错误 (TypeError: Cannot read properties of null (reading data))" }] ∧
    (send_get_request { uri := "http://a.example/", params := [], headers := none }
        (HttpOutcome.success Json.null)).1.content ≠
      [{ type := "text", text := "请求成功: undefined" }] :=
  ⟨by decide, by decide⟩

/-- Claim C7 as amended: when the GET succeeds and the response body is
not JSON null and has no data field (an object without that key, or any
non-object value), the handler returns the success marker with the text
undefined rather than taking the error path. -/
theorem send_get_request_missing_data_false_success
    (args : RequestParams) (body : Json)
    (hnull : body ≠ Json.null)
    (hno : ∀ fields, body = Json.obj fields → fields.lookup "data" = none) :
    (send_get_request args (HttpOutcome.success body)).1.content =
      [{ type := "text", text := "请求成功: undefined" }] := by
  cases body with
  | null => exact absurd rfl hnull
  | bool b => simp [send_get_request, memberData, undefinedOr]
  | num n => simp [send_get_request, memberData, undefinedOr]
  | str s => simp [send_get_request, memberData, undefinedOr]
  | arr xs => simp [send_get_request, memberData, undefinedOr]
  | obj fields => simp [send_get_request, memberData, undefinedOr, hno fields rfl]

/-- Witness for the amended claim C7 at a concrete object body without a
data field. -/
theorem send_get_request_missing_data_witness :
    (Json.obj [("id", Json.num 1)] ≠ Json.null) ∧
    (send_get_request { uri := "http://a.example/", params := [], headers := none }
        (HttpOutcome.success (Json.obj [("id", Json.num 1)]))).1.content =
      [{ type := "text", text := "请求成功: undefined" }] :=
  ⟨by simp, send_get_request_missing_data_false_success _ _ (by simp)
    (fun fields h => by cases h; rfl)⟩

/-- Claim C8: if startup fails (main rejects), the process exits with
code 1; on normal shutdown the exit code is 0. -/
theorem process_exit_codes :
    processExitCode StartupOutcome.ok = 0 ∧
    ∀ e : String, processExitCode (StartupOutcome.error e) = 1 :=
  ⟨rfl, fun _ => rfl⟩

/-- Claim C9: omitting the optional headers argument and passing an
empty header mapping produce the same single outbound request, whose
headers are the empty mapping. -/
theorem send_get_request_headers_omitted
    (uri : String) (params : List (String × Json)) (outcome : HttpOutcome) :
    (send_get_request { uri := uri, params := params, headers := none } outcome).2 =
      (send_get_request { uri := uri, params := params, headers := some [] } outcome).2 ∧
    (send_get_request { uri := uri, params := params, headers := none } outcome).2 =
      [{ uri := uri, params := params, headers := [], timeout := 10000 }] := by
  constructor
  · rw [send_get_request_trace, send_get_request_trace]
    rfl
  · rw [send_get_request_trace]
    rfl

/-- Claim C10: the status resource handler echoes the request URI back
unchanged as the uri field of its single content item. -/
theorem status_resource_echoes_uri (u : URI) :
    ((statusResourceHandler u).contents.map ResourceContent.uri) = [u.href] := rfl
